import Mathlib

/-!
Verification of the Walmart MCP server (`mcp_servers/walmart`): a shallow
embedding of `tools/base.py`, `tools/search.py` and the dispatcher in
`server.py`, followed by theorems about the embedded operations.

Modelling conventions:
* Backend JSON bodies are opaque to the server (returned verbatim), so we
  represent them by their serialized text.
* Python floats (`min_price`, `max_price`) are carried through unmodified by
  the code; we represent them as rationals, which the code never computes on.
* Each tool returns, next to its result envelope, the list of outbound HTTP
  requests it performed, so that "no backend call is made" and "exactly one
  call, no retry" are provable statements.
* The behaviour of `requests.get`/`raise_for_status`/`response.json()` is an
  oracle `Backend : OutboundRequest → BackendResult` distinguishing a
  successful JSON body, a `requests.exceptions.RequestException`, and any
  other exception raised inside the `try` block.
-/

namespace Walmart

/-- Dynamic values of the four JSON-schema parameter types
(string, integer, number, boolean).  Outbound query parameters and raw
invocation arguments both range over these. -/
inductive ArgV where
  | str (s : String)
  | int (n : Int)
  | num (q : Rat)
  | bool (b : Bool)
deriving Repr, DecidableEq

/-- Opaque backend JSON body, represented by its serialized text. -/
abbrev Json := String

/-- Per-invocation credential environment of `tools/base.py`: the
request-scoped context variable `auth_token_context` (`none` models a
variable that was never set, whose `get()` raises `LookupError`) and the
process environment variable `WALMART_API_KEY` (`none` models an unset
variable, for which `os.getenv` returns `None`). -/
structure Ctx where
  contextToken : Option String
  envToken : Option String
deriving Repr, DecidableEq

/-- `get_auth_token` from `tools/base.py`.  Python truthiness makes both the
empty string and an absent value fall through: the context token is used when
set and non-empty; otherwise the environment variable when set and non-empty;
otherwise a `RuntimeError` is raised (modelled as `.error` with its message). -/
def get_auth_token (c : Ctx) : Except String String :=
  match c.contextToken with
  | some token =>
      if token != "" then .ok token
      else
        match c.envToken with
        | some t =>
            if t != "" then .ok t
            else .error "No Walmart auth token found in context or environment"
        | none => .error "No Walmart auth token found in context or environment"
  | none =>
      match c.envToken with
      | some t =>
          if t != "" then .ok t
          else .error "No Walmart auth token found in context or environment"
      | none => .error "No Walmart auth token found in context or environment"

/-- `get_walmart_client` from `tools/base.py`: `get_auth_token` with the
`RuntimeError` caught and turned into `None`. -/
def get_walmart_client (c : Ctx) : Option String :=
  match get_auth_token c with
  | .ok t => some t
  | .error _ => none

/-- An outbound HTTP GET request: target URL, headers, query parameters
(the arguments of `requests.get` in `tools/search.py`). -/
structure OutboundRequest where
  url : String
  headers : List (String × String)
  params : List (String × ArgV)
deriving Repr, DecidableEq

/-- Outcome of one `requests.get(...)` / `raise_for_status()` /
`response.json()` sequence: a parsed JSON body, a
`requests.exceptions.RequestException` (connection error or non-2xx status),
or any other exception raised inside the `try` block. -/
inductive BackendResult where
  | ok (body : Json)
  | requestException (msg : String)
  | otherError (msg : String)
deriving Repr, DecidableEq

/-- The network, as an oracle from requests to outcomes. -/
abbrev Backend := OutboundRequest → BackendResult

/-- The result envelope a tool returns: either the backend JSON body
verbatim, or the failure dictionary `{"error": msg}`. -/
inductive ToolResult where
  | success (body : Json)
  | failure (error : String)
deriving Repr, DecidableEq

/-- The three identical header dictionaries built in `tools/search.py`. -/
def walmartHeaders (token : String) : List (String × String) :=
  [("Accept", "application/json"),
   ("WM_SEC.ACCESS_TOKEN", token),
   ("WM_QOS.CORRELATION_ID", "walmart-mcp-server")]

/-- The query-parameter dictionary built by `walmart_product_search`
(`search.py` lines 50-66): mandatory `query`/`limit`/`offset` with the limit
clamped to 50, then each optional filter appended under Python truthiness
rules (`if sort and sort != "relevance"`, `if x is not None`,
`if category_id`). -/
def productSearchParams (query : String) (limit offset : Int) (sort : String)
    (min_price max_price : Option Rat) (in_stock : Option Bool)
    (category_id : Option String) : List (String × ArgV) :=
  [("query", ArgV.str query),
   ("limit", ArgV.int (min limit 50)),
   ("offset", ArgV.int offset)]
  ++ (if sort != "" && sort != "relevance" then [("sort", ArgV.str sort)] else [])
  ++ (match min_price with | some p => [("minPrice", ArgV.num p)] | none => [])
  ++ (match max_price with | some p => [("maxPrice", ArgV.num p)] | none => [])
  ++ (match in_stock with | some b => [("inStock", ArgV.bool b)] | none => [])
  ++ (match category_id with
      | some s => if s != "" then [("categoryId", ArgV.str s)] else []
      | none => [])

/-- The outbound request `walmart_product_search` hands to `requests.get`. -/
def productSearchRequest (token query : String) (limit offset : Int)
    (sort : String) (min_price max_price : Option Rat) (in_stock : Option Bool)
    (category_id : Option String) : OutboundRequest :=
  { url := "https://api.walmart.com/v3/items/search",
    headers := walmartHeaders token,
    params := productSearchParams query limit offset sort min_price max_price
      in_stock category_id }

/-- `walmart_product_search` from `tools/search.py`, returning its result
envelope together with the list of outbound calls performed. -/
def walmart_product_search (c : Ctx) (backend : Backend) (query : String)
    (limit : Int := 10) (offset : Int := 0) (sort : String := "relevance")
    (min_price : Option Rat := none) (max_price : Option Rat := none)
    (in_stock : Option Bool := none) (category_id : Option String := none) :
    ToolResult × List OutboundRequest :=
  match get_walmart_client c with
  | none => (.failure "Missing Walmart API token", [])
  | some token =>
      let req := productSearchRequest token query limit offset sort min_price
        max_price in_stock category_id
      match backend req with
      | .ok body => (.success body, [req])
      | .requestException _ =>
          (.failure ("Could not complete Walmart product search for query: "
            ++ query), [req])
      | .otherError m =>
          (.failure ("Unexpected error in Walmart product search: " ++ m),
            [req])

/-- The query-parameter dictionary built by `walmart_store_search`
(`search.py` lines 109-113), with the limit clamped to 20. -/
def storeSearchParams (location : String) (radius limit : Int) :
    List (String × ArgV) :=
  [("location", ArgV.str location),
   ("radius", ArgV.int radius),
   ("limit", ArgV.int (min limit 20))]

/-- The outbound request `walmart_store_search` hands to `requests.get`. -/
def storeSearchRequest (token location : String) (radius limit : Int) :
    OutboundRequest :=
  { url := "https://api.walmart.com/v3/stores",
    headers := walmartHeaders token,
    params := storeSearchParams location radius limit }

/-- `walmart_store_search` from `tools/search.py`, returning its result
envelope together with the list of outbound calls performed. -/
def walmart_store_search (c : Ctx) (backend : Backend) (location : String)
    (radius : Int := 25) (limit : Int := 10) :
    ToolResult × List OutboundRequest :=
  match get_walmart_client c with
  | none => (.failure "Missing Walmart API token", [])
  | some token =>
      let req := storeSearchRequest token location radius limit
      match backend req with
      | .ok body => (.success body, [req])
      | .requestException _ =>
          (.failure ("Could not complete Walmart store search for location: "
            ++ location), [req])
      | .otherError m =>
          (.failure ("Unexpected error in Walmart store search: " ++ m), [req])

/-- Endpoint selection of `walmart_category_search` (`search.py` lines
148-152): the parent-scoped URL when `parent_id` is truthy, the flat
categories URL otherwise. -/
def categorySearchUrl (parent_id : Option String) : String :=
  match parent_id with
  | some p =>
      if p != "" then "https://api.walmart.com/v3/items/categories/" ++ p
      else "https://api.walmart.com/v3/items/categories"
  | none => "https://api.walmart.com/v3/items/categories"

/-- The query-parameter dictionary built by `walmart_category_search`
(`search.py` lines 161-166), with the limit clamped to 50 and `query`
appended only when truthy. -/
def categorySearchParams (query : Option String) (limit : Int) :
    List (String × ArgV) :=
  [("limit", ArgV.int (min limit 50))]
  ++ (match query with
      | some q => if q != "" then [("query", ArgV.str q)] else []
      | none => [])

/-- The outbound request `walmart_category_search` hands to `requests.get`. -/
def categorySearchRequest (token : String) (query parent_id : Option String)
    (limit : Int) : OutboundRequest :=
  { url := categorySearchUrl parent_id,
    headers := walmartHeaders token,
    params := categorySearchParams query limit }

/-- `walmart_category_search` from `tools/search.py`, returning its result
envelope together with the list of outbound calls performed. -/
def walmart_category_search (c : Ctx) (backend : Backend)
    (query : Option String := none) (parent_id : Option String := none)
    (limit : Int := 20) : ToolResult × List OutboundRequest :=
  match get_walmart_client c with
  | none => (.failure "Missing Walmart API token", [])
  | some token =>
      let req := categorySearchRequest token query parent_id limit
      match backend req with
      | .ok body => (.success body, [req])
      | .requestException _ =>
          (.failure "Could not complete Walmart category search", [req])
      | .otherError m =>
          (.failure ("Unexpected error in Walmart category search: " ++ m),
            [req])

/-! ## Dispatcher (`server.py` `call_tool`)

`call_tool` receives a raw argument mapping and invokes the matching tool as
`await tool(**arguments)`.  Python binds the keywords against the tool's
signature, raising `TypeError` for an unexpected keyword or a missing
required argument; any exception raised inside `call_tool`, including these
binding failures and the `ValueError` for an unknown tool name, is caught and
returned as `{"error": str(e)}`.  The binder below models that keyword
binding; argument values are assumed to be of their JSON-schema types (an
ill-typed value would be bound unchecked by Python and fail, if at all, later
in the body — no claim depends on that case, and the binder rejects it). -/

/-- Parameter names of `walmart_product_search`. -/
def productSearchKeys : List String :=
  ["query", "limit", "offset", "sort", "min_price", "max_price", "in_stock",
   "category_id"]

/-- Parameter names of `walmart_store_search`. -/
def storeSearchKeys : List String := ["location", "radius", "limit"]

/-- Parameter names of `walmart_category_search`. -/
def categorySearchKeys : List String := ["query", "parent_id", "limit"]

/-- Look up an optional string-typed keyword argument. -/
def getStrArg (args : List (String × ArgV)) (k : String) :
    Except String (Option String) :=
  match args.lookup k with
  | none => .ok none
  | some (ArgV.str s) => .ok (some s)
  | some _ => .error ("bad argument type for: " ++ k)

/-- Look up an optional integer-typed keyword argument. -/
def getIntArg (args : List (String × ArgV)) (k : String) :
    Except String (Option Int) :=
  match args.lookup k with
  | none => .ok none
  | some (ArgV.int n) => .ok (some n)
  | some _ => .error ("bad argument type for: " ++ k)

/-- Look up an optional number-typed keyword argument. -/
def getNumArg (args : List (String × ArgV)) (k : String) :
    Except String (Option Rat) :=
  match args.lookup k with
  | none => .ok none
  | some (ArgV.num q) => .ok (some q)
  | some _ => .error ("bad argument type for: " ++ k)

/-- Look up an optional boolean-typed keyword argument. -/
def getBoolArg (args : List (String × ArgV)) (k : String) :
    Except String (Option Bool) :=
  match args.lookup k with
  | none => .ok none
  | some (ArgV.bool b) => .ok (some b)
  | some _ => .error ("bad argument type for: " ++ k)

/-- The parameters of `walmart_product_search` after keyword binding, with
the signature's defaults filled in. -/
structure ProductArgs where
  query : String
  limit : Int
  offset : Int
  sort : String
  min_price : Option Rat
  max_price : Option Rat
  in_stock : Option Bool
  category_id : Option String
deriving Repr, DecidableEq

/-- Keyword binding of `walmart_product_search(**arguments)`: reject unknown
keywords and a missing required `query`, fill defaults for absent optionals. -/
def bindProductSearch (args : List (String × ArgV)) :
    Except String ProductArgs :=
  if args.any (fun p => !(productSearchKeys.contains p.1)) then
    .error "walmart_product_search() got an unexpected keyword argument"
  else
    match args.lookup "query" with
    | none => .error "walmart_product_search() missing required argument: query"
    | some (ArgV.str q) => do
        let limit ← getIntArg args "limit"
        let offset ← getIntArg args "offset"
        let sort ← getStrArg args "sort"
        let minp ← getNumArg args "min_price"
        let maxp ← getNumArg args "max_price"
        let instock ← getBoolArg args "in_stock"
        let catid ← getStrArg args "category_id"
        .ok ⟨q, limit.getD 10, offset.getD 0, sort.getD "relevance",
          minp, maxp, instock, catid⟩
    | some _ => .error "bad argument type for: query"

/-- The parameters of `walmart_store_search` after keyword binding. -/
structure StoreArgs where
  location : String
  radius : Int
  limit : Int
deriving Repr, DecidableEq

/-- Keyword binding of `walmart_store_search(**arguments)`. -/
def bindStoreSearch (args : List (String × ArgV)) : Except String StoreArgs :=
  if args.any (fun p => !(storeSearchKeys.contains p.1)) then
    .error "walmart_store_search() got an unexpected keyword argument"
  else
    match args.lookup "location" with
    | none => .error "walmart_store_search() missing required argument: location"
    | some (ArgV.str l) => do
        let radius ← getIntArg args "radius"
        let limit ← getIntArg args "limit"
        .ok ⟨l, radius.getD 25, limit.getD 10⟩
    | some _ => .error "bad argument type for: location"

/-- The parameters of `walmart_category_search` after keyword binding. -/
structure CategoryArgs where
  query : Option String
  parent_id : Option String
  limit : Int
deriving Repr, DecidableEq

/-- Keyword binding of `walmart_category_search(**arguments)` (no required
parameter). -/
def bindCategorySearch (args : List (String × ArgV)) :
    Except String CategoryArgs := do
  if args.any (fun p => !(categorySearchKeys.contains p.1)) then
    .error "walmart_category_search() got an unexpected keyword argument"
  else do
    let q ← getStrArg args "query"
    let pid ← getStrArg args "parent_id"
    let limit ← getIntArg args "limit"
    .ok ⟨q, pid, limit.getD 20⟩

/-- `call_tool` from `server.py`: dispatch on the tool name, bind the raw
arguments, run the tool; an unknown name raises
`ValueError(f"Unknown tool: {name}")` and every exception is caught and
returned as the envelope `{"error": str(e)}` with no outbound call made. -/
def call_tool (c : Ctx) (backend : Backend) (name : String)
    (arguments : List (String × ArgV)) : ToolResult × List OutboundRequest :=
  if name == "walmart_product_search" then
    match bindProductSearch arguments with
    | .error m => (.failure m, [])
    | .ok a =>
        walmart_product_search c backend a.query a.limit a.offset a.sort
          a.min_price a.max_price a.in_stock a.category_id
  else if name == "walmart_store_search" then
    match bindStoreSearch arguments with
    | .error m => (.failure m, [])
    | .ok a => walmart_store_search c backend a.location a.radius a.limit
  else if name == "walmart_category_search" then
    match bindCategorySearch arguments with
    | .error m => (.failure m, [])
    | .ok a => walmart_category_search c backend a.query a.parent_id a.limit
  else (.failure ("Unknown tool: " ++ name), [])

/-! ## Theorems -/

/-- When the context variable is unset or empty and the environment variable
is unset or empty, `get_walmart_client` yields no token. -/
theorem get_walmart_client_eq_none (c : Ctx)
    (hc : c.contextToken = none ∨ c.contextToken = some "")
    (he : c.envToken = none ∨ c.envToken = some "") :
    get_walmart_client c = none := by
  obtain ⟨ct, et⟩ := c
  simp only at hc he
  rcases hc with h | h <;> rcases he with h2 | h2 <;>
    subst h <;> subst h2 <;> rfl

/-- C1: for every invocation of any of the three registered operations, if no
credential is resolvable (no per-invocation context value and no environment
fallback), the operation returns the failure envelope
`{error: "Missing Walmart API token"}` and no outbound backend call is made. -/
theorem missing_credential_short_circuits (c : Ctx) (backend : Backend)
    (hc : c.contextToken = none ∨ c.contextToken = some "")
    (he : c.envToken = none ∨ c.envToken = some "") :
    (∀ query limit offset sort min_price max_price in_stock category_id,
        walmart_product_search c backend query limit offset sort min_price
            max_price in_stock category_id
          = (.failure "Missing Walmart API token", []))
    ∧ (∀ location radius limit,
        walmart_store_search c backend location radius limit
          = (.failure "Missing Walmart API token", []))
    ∧ (∀ query parent_id limit,
        walmart_category_search c backend query parent_id limit
          = (.failure "Missing Walmart API token", [])) := by
  have h := get_walmart_client_eq_none c hc he
  refine ⟨?_, ?_, ?_⟩ <;> intros <;>
    simp [walmart_product_search, walmart_store_search,
      walmart_category_search, h]

/-- Witness for C1 at a concrete uncredentialed invocation. -/
theorem missing_credential_short_circuits_witness :
    walmart_product_search ⟨none, none⟩ (fun _ => .ok "{}") "tv" 10 0
        "relevance" none none none none
      = (.failure "Missing Walmart API token", []) :=
  (missing_credential_short_circuits ⟨none, none⟩ (fun _ => .ok "{}")
    (Or.inl rfl) (Or.inl rfl)).1 "tv" 10 0 "relevance" none none none none

/-- C2: for every invocation whose operation name is not one of the three
registered names, the dispatcher returns the failure envelope
`{error: "Unknown tool: <name>"}` and no outbound backend call is made. -/
theorem unknown_tool_dispatch (c : Ctx) (backend : Backend) (name : String)
    (args : List (String × ArgV))
    (h1 : name ≠ "walmart_product_search")
    (h2 : name ≠ "walmart_store_search")
    (h3 : name ≠ "walmart_category_search") :
    call_tool c backend name args
      = (.failure ("Unknown tool: " ++ name), []) := by
  simp [call_tool, h1, h2, h3]

/-- Witness for C2 at a concrete unregistered name. -/
theorem unknown_tool_dispatch_witness :
    call_tool ⟨some "tok", none⟩ (fun _ => .ok "{}") "walmart_order_status" []
      = (.failure "Unknown tool: walmart_order_status", []) :=
  unknown_tool_dispatch ⟨some "tok", none⟩ (fun _ => .ok "{}")
    "walmart_order_status" [] (by decide) (by decide) (by decide)

/-- C3: with a resolvable credential, every operation performs its outbound
call with the limit clamped to its documented cap and never rejects the
value: the outbound query carries `min(limit, 50)` for product search,
`min(limit, 20)` for store search and `min(limit, 50)` for category search. -/
theorem limit_clamped (c : Ctx) (backend : Backend) (token : String)
    (h : get_walmart_client c = some token) :
    (∀ query limit offset sort min_price max_price in_stock category_id,
        (walmart_product_search c backend query limit offset sort min_price
            max_price in_stock category_id).2
          = [productSearchRequest token query limit offset sort min_price
              max_price in_stock category_id]
        ∧ (productSearchRequest token query limit offset sort min_price
            max_price in_stock category_id).params.lookup "limit"
          = some (ArgV.int (min limit 50)))
    ∧ (∀ location radius limit,
        (walmart_store_search c backend location radius limit).2
          = [storeSearchRequest token location radius limit]
        ∧ (storeSearchRequest token location radius limit).params.lookup
            "limit" = some (ArgV.int (min limit 20)))
    ∧ (∀ query parent_id limit,
        (walmart_category_search c backend query parent_id limit).2
          = [categorySearchRequest token query parent_id limit]
        ∧ (categorySearchRequest token query parent_id limit).params.lookup
            "limit" = some (ArgV.int (min limit 50))) := by
  refine ⟨fun query limit offset sort mp xp ins cid => ⟨?_, ?_⟩,
          fun location radius limit => ⟨?_, ?_⟩,
          fun query parent_id limit => ⟨?_, ?_⟩⟩
  · simp only [walmart_product_search, h]
    cases backend (productSearchRequest token query limit offset sort mp xp
      ins cid) <;> rfl
  · rfl
  · simp only [walmart_store_search, h]
    cases backend (storeSearchRequest token location radius limit) <;> rfl
  · rfl
  · simp only [walmart_category_search, h]
    cases backend (categorySearchRequest token query parent_id limit) <;> rfl
  · rfl

/-- Witness for C3: product search with `limit = 999` sends `limit = 50`,
store search with `limit = 999` sends `limit = 20`. -/
theorem limit_clamped_witness :
    (productSearchRequest "tok" "tv" 999 0 "relevance" none none none
        none).params.lookup "limit" = some (ArgV.int 50)
    ∧ (storeSearchRequest "tok" "10001" 25 999).params.lookup "limit"
      = some (ArgV.int 20) := by
  have h := limit_clamped ⟨some "tok", none⟩ (fun _ => .ok "{}") "tok" rfl
  refine ⟨?_, ?_⟩
  · have h1 := (h.1 "tv" 999 0 "relevance" none none none none).2
    simpa using h1
  · have h2 := (h.2.1 "10001" 25 999).2
    simpa using h2

/-- C5: with a resolvable credential, when the outbound call raises a
transport-level fault (connection error or non-2xx status), each operation
returns the failure envelope with its fixed operation-specific message —
naming the query for product search, the location for store search, and
"category search" for category search, independent of the exception text —
and exactly one outbound call is made (no retry). -/
theorem transport_fault_normalized (c : Ctx) (backend : Backend)
    (token m : String) (h : get_walmart_client c = some token)
    (hb : ∀ r, backend r = .requestException m) :
    (∀ query limit offset sort min_price max_price in_stock category_id,
        walmart_product_search c backend query limit offset sort min_price
            max_price in_stock category_id
          = (.failure ("Could not complete Walmart product search for query: "
              ++ query),
             [productSearchRequest token query limit offset sort min_price
               max_price in_stock category_id]))
    ∧ (∀ location radius limit,
        walmart_store_search c backend location radius limit
          = (.failure
              ("Could not complete Walmart store search for location: "
                ++ location),
             [storeSearchRequest token location radius limit]))
    ∧ (∀ query parent_id limit,
        walmart_category_search c backend query parent_id limit
          = (.failure "Could not complete Walmart category search",
             [categorySearchRequest token query parent_id limit])) := by
  refine ⟨?_, ?_, ?_⟩ <;> intros <;>
    simp [walmart_product_search, walmart_store_search,
      walmart_category_search, h, hb]

/-- Witness for C5 at a concrete failing backend. -/
theorem transport_fault_normalized_witness :
    walmart_store_search ⟨some "tok", none⟩
        (fun _ => .requestException "503 Server Error") "10001" 25 10
      = (.failure
          "Could not complete Walmart store search for location: 10001",
         [storeSearchRequest "tok" "10001" 25 10]) :=
  (transport_fault_normalized ⟨some "tok", none⟩
    (fun _ => .requestException "503 Server Error") "tok" "503 Server Error"
    rfl (fun _ => rfl)).2.1 "10001" 25 10

/-- C6: credential resolution returns the context token when it is set and
non-empty; otherwise the environment default when that is set and non-empty;
and it fails exactly when neither source yields a non-empty token, including
when the context variable is unset entirely or set to the empty string. -/
theorem credential_resolution_order (c : Ctx) :
    (∀ t, c.contextToken = some t → t ≠ "" → get_auth_token c = .ok t)
    ∧ (∀ e, (c.contextToken = none ∨ c.contextToken = some "") →
        c.envToken = some e → e ≠ "" → get_auth_token c = .ok e)
    ∧ ((c.contextToken = none ∨ c.contextToken = some "") →
        (c.envToken = none ∨ c.envToken = some "") →
        ∃ msg, get_auth_token c = .error msg)
    ∧ (∀ msg, get_auth_token c = .error msg →
        (c.contextToken = none ∨ c.contextToken = some "")
        ∧ (c.envToken = none ∨ c.envToken = some "")) := by
  obtain ⟨ct, et⟩ := c
  refine ⟨?_, ?_, ?_, ?_⟩
  · rintro t ht hne
    simp only at ht
    subst ht
    simp [get_auth_token, hne]
  · rintro e hc he hne
    simp only at hc he
    subst he
    rcases hc with h | h <;> subst h <;> simp [get_auth_token, hne]
  · rintro hc he
    simp only at hc he
    rcases hc with h | h <;> rcases he with h2 | h2 <;> subst h <;> subst h2 <;>
      exact ⟨_, rfl⟩
  · intro msg hmsg
    simp only
    rcases ct with _ | t
    · rcases et with _ | e
      · exact ⟨Or.inl rfl, Or.inl rfl⟩
      · by_cases he : e = ""
        · exact ⟨Or.inl rfl, Or.inr (by rw [he])⟩
        · simp [get_auth_token, he] at hmsg
    · by_cases ht : t = ""
      · subst ht
        rcases et with _ | e
        · exact ⟨Or.inr rfl, Or.inl rfl⟩
        · by_cases he : e = ""
          · exact ⟨Or.inr rfl, Or.inr (by rw [he])⟩
          · simp [get_auth_token, he] at hmsg
      · simp [get_auth_token, ht] at hmsg

/-- Witness for C6: a non-empty context token wins over the environment. -/
theorem credential_resolution_order_witness :
    get_auth_token ⟨some "ctxTok", some "envTok"⟩ = .ok "ctxTok" :=
  (credential_resolution_order ⟨some "ctxTok", some "envTok"⟩).1 "ctxTok" rfl
    (by decide)

/-- The `sort` parameter is transmitted exactly when it is non-empty and
differs from the default `"relevance"`, verbatim. -/
theorem productSearchParams_lookup_sort (query : String) (limit offset : Int)
    (sort : String) (mp xp : Option Rat) (ins : Option Bool)
    (cid : Option String) :
    (productSearchParams query limit offset sort mp xp ins cid).lookup "sort"
      = if sort ≠ "" ∧ sort ≠ "relevance" then some (ArgV.str sort)
        else none := by
  unfold productSearchParams
  by_cases h1 : sort = "" <;> by_cases h2 : sort = "relevance" <;>
    rcases mp with _ | p <;> rcases xp with _ | p2 <;> rcases ins with _ | b <;>
    rcases cid with _ | s <;>
    simp_all [List.lookup]

/-- The `minPrice` parameter is transmitted exactly when `min_price` is
non-null. -/
theorem productSearchParams_lookup_minPrice (query : String)
    (limit offset : Int) (sort : String) (mp xp : Option Rat)
    (ins : Option Bool) (cid : Option String) :
    (productSearchParams query limit offset sort mp xp ins cid).lookup
        "minPrice" = mp.map ArgV.num := by
  unfold productSearchParams
  by_cases h1 : sort = "" <;> by_cases h2 : sort = "relevance" <;>
    rcases mp with _ | p <;> rcases xp with _ | p2 <;> rcases ins with _ | b <;>
    rcases cid with _ | s <;>
    simp_all [List.lookup]

/-- The `maxPrice` parameter is transmitted exactly when `max_price` is
non-null. -/
theorem productSearchParams_lookup_maxPrice (query : String)
    (limit offset : Int) (sort : String) (mp xp : Option Rat)
    (ins : Option Bool) (cid : Option String) :
    (productSearchParams query limit offset sort mp xp ins cid).lookup
        "maxPrice" = xp.map ArgV.num := by
  unfold productSearchParams
  by_cases h1 : sort = "" <;> by_cases h2 : sort = "relevance" <;>
    rcases mp with _ | p <;> rcases xp with _ | p2 <;> rcases ins with _ | b <;>
    rcases cid with _ | s <;>
    simp_all [List.lookup]

/-- The `inStock` parameter is transmitted exactly when `in_stock` is
non-null (in particular, an explicit `false` is transmitted). -/
theorem productSearchParams_lookup_inStock (query : String)
    (limit offset : Int) (sort : String) (mp xp : Option Rat)
    (ins : Option Bool) (cid : Option String) :
    (productSearchParams query limit offset sort mp xp ins cid).lookup
        "inStock" = ins.map ArgV.bool := by
  unfold productSearchParams
  by_cases h1 : sort = "" <;> by_cases h2 : sort = "relevance" <;>
    rcases mp with _ | p <;> rcases xp with _ | p2 <;> rcases ins with _ | b <;>
    rcases cid with _ | s <;>
    simp_all [List.lookup]

/-- The `categoryId` parameter is transmitted exactly when `category_id` is
supplied and non-empty (Python truthiness: `if category_id:`). -/
theorem productSearchParams_lookup_categoryId (query : String)
    (limit offset : Int) (sort : String) (mp xp : Option Rat)
    (ins : Option Bool) (cid : Option String) :
    (productSearchParams query limit offset sort mp xp ins cid).lookup
        "categoryId"
      = match cid with
        | some s => if s ≠ "" then some (ArgV.str s) else none
        | none => none := by
  unfold productSearchParams
  by_cases h1 : sort = "" <;> by_cases h2 : sort = "relevance" <;>
    rcases mp with _ | p <;> rcases xp with _ | p2 <;> rcases ins with _ | b <;>
    rcases cid with _ | s <;>
    (simp_all [List.lookup]; try (split <;> simp_all [List.lookup]))

/-- Counterexample to C4: `category_id` can be supplied (as the empty
string) and still be omitted from the outbound query — inclusion follows
Python truthiness, not mere presence.  The invocation proceeds to the
backend with no `categoryId` parameter. -/
theorem optional_filters_counterexample :
    (walmart_product_search ⟨some "tok", none⟩ (fun _ => .ok "{}") "tv" 10 0
        "relevance" none none none (some "")).2
      = [productSearchRequest "tok" "tv" 10 0 "relevance" none none none
          (some "")]
    ∧ (productSearchRequest "tok" "tv" 10 0 "relevance" none none none
        (some "")).params.lookup "categoryId" = none :=
  ⟨rfl, rfl⟩

/-- C4 (amended): with a resolvable credential, each optional product-search
filter appears in the outbound query as follows — `sort` exactly when
non-empty and different from the default `"relevance"` (then verbatim);
`min_price`/`max_price`/`in_stock` exactly when non-null; `category_id`
exactly when supplied and non-empty. -/
theorem optional_filters_amended (c : Ctx) (backend : Backend)
    (token : String) (h : get_walmart_client c = some token) :
    ∀ query limit offset sort min_price max_price in_stock category_id,
      (walmart_product_search c backend query limit offset sort min_price
          max_price in_stock category_id).2
        = [productSearchRequest token query limit offset sort min_price
            max_price in_stock category_id]
      ∧ (productSearchParams query limit offset sort min_price max_price
          in_stock category_id).lookup "sort"
        = (if sort ≠ "" ∧ sort ≠ "relevance" then some (ArgV.str sort)
           else none)
      ∧ (productSearchParams query limit offset sort min_price max_price
          in_stock category_id).lookup "minPrice" = min_price.map ArgV.num
      ∧ (productSearchParams query limit offset sort min_price max_price
          in_stock category_id).lookup "maxPrice" = max_price.map ArgV.num
      ∧ (productSearchParams query limit offset sort min_price max_price
          in_stock category_id).lookup "inStock" = in_stock.map ArgV.bool
      ∧ (productSearchParams query limit offset sort min_price max_price
          in_stock category_id).lookup "categoryId"
        = (match category_id with
           | some s => if s ≠ "" then some (ArgV.str s) else none
           | none => none) := by
  intro query limit offset sort mp xp ins cid
  refine ⟨?_, productSearchParams_lookup_sort ..,
    productSearchParams_lookup_minPrice ..,
    productSearchParams_lookup_maxPrice ..,
    productSearchParams_lookup_inStock ..,
    productSearchParams_lookup_categoryId ..⟩
  simp only [walmart_product_search, h]
  cases backend (productSearchRequest token query limit offset sort mp xp ins
    cid) <;> rfl

/-- Witness for C4 (amended): a non-default sort is sent verbatim, an
explicit `in_stock = false` is sent, and an empty `category_id` is omitted. -/
theorem optional_filters_amended_witness :
    (productSearchParams "tv" 10 0 "price_low" none none (some false)
        (some "")).lookup "sort" = some (ArgV.str "price_low")
    ∧ (productSearchParams "tv" 10 0 "price_low" none none (some false)
        (some "")).lookup "inStock" = some (ArgV.bool false)
    ∧ (productSearchParams "tv" 10 0 "price_low" none none (some false)
        (some "")).lookup "categoryId" = none := by
  have h := optional_filters_amended ⟨some "tok", none⟩ (fun _ => .ok "{}")
    "tok" rfl "tv" 10 0 "price_low" none none (some false) (some "")
  refine ⟨?_, ?_, ?_⟩
  · have := h.2.1
    simpa using this
  · have := h.2.2.2.2.1
    simpa using this
  · have := h.2.2.2.2.2
    simpa using this

/-- The category-search `query` parameter is transmitted exactly when
supplied and non-empty (Python truthiness: `if query:`). -/
theorem categorySearchParams_lookup_query (query : Option String)
    (limit : Int) :
    (categorySearchParams query limit).lookup "query"
      = match query with
        | some q => if q ≠ "" then some (ArgV.str q) else none
        | none => none := by
  unfold categorySearchParams
  rcases query with _ | q
  · rfl
  · by_cases h : q = "" <;> simp_all [List.lookup]

/-- Counterexample to C7: `parent_id` can be supplied (as the empty string)
while the outbound request still targets the flat categories endpoint, and a
supplied empty `query` is not sent — endpoint selection and query inclusion
follow Python truthiness, not mere presence. -/
theorem category_endpoint_counterexample :
    (walmart_category_search ⟨some "tok", none⟩ (fun _ => .ok "{}")
        (some "") (some "") 20).2
      = [{ url := "https://api.walmart.com/v3/items/categories",
           headers := walmartHeaders "tok",
           params := [("limit", ArgV.int 20)] }]
    ∧ categorySearchUrl (some "")
      ≠ "https://api.walmart.com/v3/items/categories/" ++ "" :=
  ⟨rfl, by decide⟩

/-- C7 (amended): with a resolvable credential, every category-search
invocation performs exactly one outbound call; when `parent_id` is supplied
and non-empty the call targets the categories-by-parent endpoint with the
parent id embedded in the URL path, otherwise the flat categories endpoint;
`query` is sent as a query parameter exactly when supplied and non-empty. -/
theorem category_endpoint_selection (c : Ctx) (backend : Backend)
    (token : String) (h : get_walmart_client c = some token) :
    ∀ query parent_id limit,
      (walmart_category_search c backend query parent_id limit).2
        = [categorySearchRequest token query parent_id limit]
      ∧ (∀ p, parent_id = some p → p ≠ "" →
          (categorySearchRequest token query parent_id limit).url
            = "https://api.walmart.com/v3/items/categories/" ++ p)
      ∧ ((parent_id = none ∨ parent_id = some "") →
          (categorySearchRequest token query parent_id limit).url
            = "https://api.walmart.com/v3/items/categories")
      ∧ (categorySearchRequest token query parent_id limit).params.lookup
          "query"
        = (match query with
           | some q => if q ≠ "" then some (ArgV.str q) else none
           | none => none) := by
  intro query parent_id limit
  refine ⟨?_, ?_, ?_, categorySearchParams_lookup_query ..⟩
  · simp only [walmart_category_search, h]
    cases backend (categorySearchRequest token query parent_id limit) <;> rfl
  · rintro p rfl hp
    simp [categorySearchRequest, categorySearchUrl, hp]
  · rintro (rfl | rfl) <;> rfl

/-- Witness for C7 (amended) at `parent_id = "123"`. -/
theorem category_endpoint_selection_witness :
    (walmart_category_search ⟨some "tok", none⟩ (fun _ => .ok "{}") none
        (some "123") 20).2
      = [categorySearchRequest "tok" none (some "123") 20]
    ∧ (categorySearchRequest "tok" none (some "123") 20).url
      = "https://api.walmart.com/v3/items/categories/" ++ "123" := by
  have h := category_endpoint_selection ⟨some "tok", none⟩ (fun _ => .ok "{}")
    "tok" rfl none (some "123") 20
  exact ⟨h.1, h.2.1 "123" rfl (by decide)⟩

/-- Counterexample to C8: a non-transport fault's detail text does appear in
the envelope returned to the caller — the generic prefix is followed by
`str(e)`, and the envelope varies with the fault detail. -/
theorem unexpected_fault_counterexample :
    (walmart_product_search ⟨some "tok", none⟩ (fun _ => .otherError "boom")
        "tv" 10 0 "relevance" none none none none).1
      = .failure "Unexpected error in Walmart product search: boom"
    ∧ (walmart_product_search ⟨some "tok", none⟩ (fun _ => .otherError "boom")
        "tv" 10 0 "relevance" none none none none).1
      ≠ (walmart_product_search ⟨some "tok", none⟩ (fun _ => .otherError "zap")
          "tv" 10 0 "relevance" none none none none).1 :=
  ⟨rfl, by decide⟩

/-- C8 (amended): every non-transport fault arising after credential
resolution is caught and surfaced to the caller as a failure envelope — never
an uncaught fault — whose message is the operation's generic
unexpected-error prefix followed by the fault's detail text (the detail is
logged and also included in the envelope). -/
theorem unexpected_fault_envelope (c : Ctx) (backend : Backend)
    (token m : String) (h : get_walmart_client c = some token)
    (hb : ∀ r, backend r = .otherError m) :
    (∀ query limit offset sort min_price max_price in_stock category_id,
        walmart_product_search c backend query limit offset sort min_price
            max_price in_stock category_id
          = (.failure ("Unexpected error in Walmart product search: " ++ m),
             [productSearchRequest token query limit offset sort min_price
               max_price in_stock category_id]))
    ∧ (∀ location radius limit,
        walmart_store_search c backend location radius limit
          = (.failure ("Unexpected error in Walmart store search: " ++ m),
             [storeSearchRequest token location radius limit]))
    ∧ (∀ query parent_id limit,
        walmart_category_search c backend query parent_id limit
          = (.failure ("Unexpected error in Walmart category search: " ++ m),
             [categorySearchRequest token query parent_id limit])) := by
  refine ⟨?_, ?_, ?_⟩ <;> intros <;>
    simp [walmart_product_search, walmart_store_search,
      walmart_category_search, h, hb]

/-- Witness for C8 (amended) at a concrete fault. -/
theorem unexpected_fault_envelope_witness :
    walmart_category_search ⟨some "tok", none⟩ (fun _ => .otherError "boom")
        none none 20
      = (.failure "Unexpected error in Walmart category search: boom",
         [categorySearchRequest "tok" none none 20]) :=
  (unexpected_fault_envelope ⟨some "tok", none⟩ (fun _ => .otherError "boom")
    "tok" "boom" rfl (fun _ => rfl)).2.2 none none 20

/-- C10: an invocation of a registered operation whose argument mapping does
not bind against the operation's parameters — a missing required argument or
an argument name outside the operation's schema — is answered by the
dispatcher with the argument-mismatch failure envelope: the binding fault's
message (never the missing-credential message `"Missing Walmart API token"`),
and no outbound backend call, for every credential environment — in
particular also when no credential is resolvable, since keyword binding
fails before the tool body ever resolves a credential. -/
theorem malformed_arguments_dispatch (c : Ctx) (backend : Backend)
    (args : List (String × ArgV)) :
    (args.any (fun p => !(productSearchKeys.contains p.1)) = false →
        args.lookup "query" = none →
        call_tool c backend "walmart_product_search" args
          = (.failure
              "walmart_product_search() missing required argument: query",
             []))
    ∧ (args.any (fun p => !(storeSearchKeys.contains p.1)) = false →
        args.lookup "location" = none →
        call_tool c backend "walmart_store_search" args
          = (.failure
              "walmart_store_search() missing required argument: location",
             []))
    ∧ (∀ k v, (k, v) ∈ args → productSearchKeys.contains k = false →
        call_tool c backend "walmart_product_search" args
          = (.failure
              "walmart_product_search() got an unexpected keyword argument",
             []))
    ∧ (∀ k v, (k, v) ∈ args → storeSearchKeys.contains k = false →
        call_tool c backend "walmart_store_search" args
          = (.failure
              "walmart_store_search() got an unexpected keyword argument",
             []))
    ∧ (∀ k v, (k, v) ∈ args → categorySearchKeys.contains k = false →
        call_tool c backend "walmart_category_search" args
          = (.failure
              "walmart_category_search() got an unexpected keyword argument",
             [])) := by
  refine ⟨?_, ?_, ?_, ?_, ?_⟩
  · intro ha hq
    simp [call_tool, bindProductSearch, hq]
    rw [ha]
    rfl
  · intro ha hl
    simp [call_tool, bindStoreSearch, hl]
    rw [ha]
    rfl
  · intro k v hmem hk
    have ha : args.any (fun p => !(productSearchKeys.contains p.1)) = true :=
      List.any_eq_true.mpr ⟨(k, v), hmem, by simpa using hk⟩
    simp [call_tool, bindProductSearch]
    rw [if_pos ha]
  · intro k v hmem hk
    have ha : args.any (fun p => !(storeSearchKeys.contains p.1)) = true :=
      List.any_eq_true.mpr ⟨(k, v), hmem, by simpa using hk⟩
    simp [call_tool, bindStoreSearch]
    rw [if_pos ha]
  · intro k v hmem hk
    have ha : args.any (fun p => !(categorySearchKeys.contains p.1)) = true :=
      List.any_eq_true.mpr ⟨(k, v), hmem, by simpa using hk⟩
    simp [call_tool, bindCategorySearch]
    rw [if_pos ha]

/-- Witness for C10: product search invoked with no arguments at all (so the
required `query` is missing) under an unresolvable credential environment
(`⟨none, none⟩`) is answered with the missing-argument envelope — not the
missing-token envelope — and no outbound call. -/
theorem malformed_arguments_dispatch_witness :
    call_tool ⟨none, none⟩ (fun _ => .ok "{}") "walmart_product_search" []
      = (.failure "walmart_product_search() missing required argument: query",
         []) :=
  (malformed_arguments_dispatch ⟨none, none⟩ (fun _ => .ok "{}") []).1 rfl rfl

end Walmart
